import Mathlib

/-!
Verification of the signal evaluator of `src/app.py` (OneDayStock).

Floats are modelled as exact rationals (ℚ).  A pandas cell that would be
NaN (rolling windows before their `min_periods` warm-up, a VWAP whose
rolling volume sum is zero) is modelled as `none : Option ℚ`; the input
OHLCV bars themselves are NaN-free, as guaranteed by `safe_fetch`, which
drops NaN rows before `analyze_df` is called.  The wall-clock timestamp
`datetime.now()` written into the returned dict is modelled as an explicit
`now : ℕ` argument.  `AResult.indexError` models the `IndexError` raised
by `df.iloc[-2]` on a one-row frame.
-/

namespace OneDayStock

attribute [local semireducible] Rat.add Rat.sub Rat.mul Rat.inv

set_option maxRecDepth 100000

set_option maxHeartbeats 1000000

/-- One OHLCV bar, a row of the cleaned DataFrame handed to `analyze_df`. -/
structure Bar where
  open_ : ℚ
  high : ℚ
  low : ℚ
  close : ℚ
  volume : ℚ
  deriving DecidableEq, Repr

/-- Running values of `Series.ewm(adjust=False).mean()` continued from a
prior value `y`: the recursion `y_t = (1-α)·y_(t-1) + α·x_t`. -/
def ewmFrom (α : ℚ) (y : ℚ) : List ℚ → List ℚ
  | [] => []
  | x :: xs => ((1 - α) * y + α * x) :: ewmFrom α ((1 - α) * y + α * x) xs

/-- Running values of `Series.ewm(adjust=False).mean()` on a NaN-free
series: the recursion starts at the first element. -/
def ewmList (α : ℚ) : List ℚ → List ℚ
  | [] => []
  | x :: xs => x :: ewmFrom α x xs

/-- Value of the `ewm(adjust=False)` recursion at index `i`. -/
def ewmAt (α : ℚ) (xs : List ℚ) (i : ℕ) : ℚ := (ewmList α xs).getD i 0

/-- The `Close` column. -/
def closesOf (df : List Bar) : List ℚ := df.map (·.close)

/-- `ta.trend.ema_indicator(close, window=9)`:
`close.ewm(span=9, min_periods=9, adjust=False).mean()`, smoothing
`α = 2/(9+1)`; masked (NaN) before index 8. -/
def ema9At (closes : List ℚ) (i : ℕ) : Option ℚ :=
  if i + 1 < 9 then none else some (ewmAt (2/10) closes i)

/-- `ta.trend.ema_indicator(close, window=20)`: `α = 2/21`, masked before
index 19. -/
def ema20At (closes : List ℚ) (i : ℕ) : Option ℚ :=
  if i + 1 < 20 then none else some (ewmAt (2/21) closes i)

/-- Upward close-to-close moves, `diff.where(diff > 0, 0.0)`: the leading
NaN of `diff(1)` fails the condition and becomes `0`. -/
def upMoves (closes : List ℚ) : List ℚ :=
  0 :: List.zipWith (fun a b => max (b - a) 0) closes closes.tail

/-- Downward close-to-close moves, `-diff.where(diff < 0, 0.0)`. -/
def downMoves (closes : List ℚ) : List ℚ :=
  0 :: List.zipWith (fun a b => max (a - b) 0) closes closes.tail

/-- `ta.momentum.rsi(close, window=14)`: Wilder smoothing
`ewm(alpha=1/14, min_periods=14, adjust=False)` of the up/down moves,
then `np.where(emadn == 0, 100, 100 - 100/(1 + emaup/emadn))`;
masked before index 13. -/
def rsiAt (closes : List ℚ) (i : ℕ) : Option ℚ :=
  if i + 1 < 14 then none
  else
    let eu := ewmAt (1/14) (upMoves closes) i
    let ed := ewmAt (1/14) (downMoves closes) i
    some (if ed = 0 then 100 else 100 - 100 / (1 + eu / ed))

/-- The MACD line `EMA12(close) − EMA26(close)` (smoothings `2/13`,
`2/27`); in pandas it is NaN before index 25 (min_periods 26 of the slow
EMA), the underlying recursions still run from index 0. -/
def macdList (closes : List ℚ) : List ℚ :=
  List.zipWith (fun a b => a - b) (ewmList (2/13) closes) (ewmList (2/27) closes)

/-- `ta.trend.macd_diff(close)`: MACD line minus its signal line (EMA9 of
the MACD line).  The MACD line is NaN before index 25, so the signal
recursion starts at index 25 and its `min_periods=9` masks output until
9 MACD observations exist, i.e. before index 33; the difference is NaN
exactly before index 33 (the close series itself is NaN-free). -/
def macd_diffAt (closes : List ℚ) (i : ℕ) : Option ℚ :=
  if i < 33 then none
  else some ((macdList closes).getD i 0 - ewmAt (2/10) ((macdList closes).drop 25) (i - 25))

/-- `(Close*Volume).rolling(30, min_periods=1).sum() /
Volume.rolling(30, min_periods=1).sum()`; NaN when the rolling volume
sum is zero. -/
def vwapAt (df : List Bar) (i : ℕ) : Option ℚ :=
  let w := (df.take (i + 1)).drop (i + 1 - 30)
  let s2 := (w.map (·.volume)).sum
  if s2 = 0 then none else some ((w.map (fun b => b.close * b.volume)).sum / s2)

/-- `Volume.rolling(20, min_periods=1).mean()`. -/
def vol_avg20At (df : List Bar) (i : ℕ) : ℚ :=
  let w := (df.take (i + 1)).drop (i + 1 - 20)
  (w.map (·.volume)).sum / (w.length : ℚ)

/-- `Volume > vol_avg20 * 1.5`. -/
def vol_spikeAt (df : List Bar) (i : ℕ) : Bool :=
  decide ((df.getD i ⟨0, 0, 0, 0, 0⟩).volume > vol_avg20At df i * (3/2))

/-- A row of the working frame after the indicator columns have been
assigned. -/
structure Row where
  bar : Bar
  ema9 : Option ℚ
  ema20 : Option ℚ
  rsi : Option ℚ
  macd_diff : Option ℚ
  vwap : Option ℚ
  vol_avg20 : ℚ
  vol_spike : Bool
  deriving DecidableEq, Repr

/-- Row `i` of the frame after the seven column assignments in
`analyze_df`. -/
def mkRow (df : List Bar) (i : ℕ) : Row :=
  { bar := df.getD i ⟨0, 0, 0, 0, 0⟩
    ema9 := ema9At (closesOf df) i
    ema20 := ema20At (closesOf df) i
    rsi := rsiAt (closesOf df) i
    macd_diff := macd_diffAt (closesOf df) i
    vwap := vwapAt df i
    vol_avg20 := vol_avg20At df i
    vol_spike := vol_spikeAt df i }

/-- The whole frame with indicator columns. -/
def computeRows (df : List Bar) : List Row := (List.range df.length).map (mkRow df)

/-- A row `df.dropna()` removes: some cell is NaN (the OHLCV cells are
NaN-free, `vol_avg20` is a finite mean and `vol_spike` a Bool, so only
the five Option columns can be NaN). -/
def hasNaN (r : Row) : Bool :=
  r.ema9.isNone || r.ema20.isNone || r.rsi.isNone || r.macd_diff.isNone || r.vwap.isNone

/-- `df = df.dropna().reset_index(drop=True)` inside `analyze_df`. -/
def keptRows (df : List Bar) : List Row := (computeRows df).filter (fun r => !hasNaN r)

/-- The token list built from the last row (`signals` in the source). -/
def mkSignals (last : Row) : List String :=
  (if last.ema9.getD 0 > last.ema20.getD 0 then ["EMA Bullish"] else ["EMA Bearish"]) ++
  (if last.rsi.getD 0 > 55 then ["RSI Bullish"]
   else if last.rsi.getD 0 < 45 then ["RSI Bearish"] else []) ++
  (if last.macd_diff.getD 0 > 0 then ["MACD Bullish"] else ["MACD Bearish"]) ++
  (if last.bar.close > last.vwap.getD 0 then ["Above VWAP"] else ["Below VWAP"]) ++
  (if last.vol_spike then ["Volume Spike"] else [])

/-- Python `pat in tok` on the character list of `tok`. -/
def hasInfix (s pat : List Char) : Bool :=
  if pat.isPrefixOf s then true
  else
    match s with
    | [] => false
    | _ :: t => hasInfix t pat

/-- Python substring membership `pat in tok`. -/
def strIn (pat tok : String) : Bool := hasInfix tok.toList pat.toList

/-- The bullish-counting predicate of `analyze_df`. -/
def tokBullish (tok : String) : Bool :=
  strIn "Bullish" tok || strIn "Above VWAP" tok || strIn "Volume Spike" tok

/-- The bearish-counting predicate of `analyze_df`. -/
def tokBearish (tok : String) : Bool :=
  strIn "Bearish" tok || strIn "Below VWAP" tok

/-- `bullish_tokens = sum(1 for tok in signals if ...)`. -/
def bullish_tokens (signals : List String) : ℕ := signals.countP tokBullish

/-- `bearish_tokens = sum(1 for tok in signals if ...)`. -/
def bearish_tokens (signals : List String) : ℕ := signals.countP tokBearish

/-- `MIN_CONFIRM = 3`. -/
def MIN_CONFIRM : ℕ := 3

/-- The BUY / SELL / HOLD decision of `analyze_df`. -/
def decideAction (signals : List String) : String :=
  if bullish_tokens signals ≥ MIN_CONFIRM then "BUY"
  else if bearish_tokens signals ≥ MIN_CONFIRM then "SELL"
  else "HOLD"

/-- Python `round(x, 2)`: round half to even at two decimals. -/
def pyRound2 (x : ℚ) : ℚ :=
  let y := x * 100
  let f := ⌊y⌋
  let r := if y - f < 1/2 then f
           else if 1/2 < y - f then f + 1
           else if f % 2 = 0 then f else f + 1
  (r : ℚ) / 100

/-- Python `round(v, 2) if v else None`: `None` stays `None`, an exact
zero is falsy and becomes `None`, anything else is rounded. -/
def truthyRound2 : Option ℚ → Option ℚ
  | none => none
  | some x => if x = 0 then none else some (pyRound2 x)

/-- The dict returned by `analyze_df`. -/
structure Sig where
  action : String
  price : ℚ
  sl : Option ℚ
  target : Option ℚ
  signals : List String
  time : ℕ
  deriving DecidableEq, Repr

/-- Result of a call to `analyze_df`: `None` (NO_DATA), an `IndexError`
escaping from `df.iloc[-2]`, or the returned dict. -/
inductive AResult where
  | noData
  | indexError
  | ok (s : Sig)
  deriving DecidableEq, Repr

/-- `df.iloc[-2]`: the second-to-last element, `IndexError` (`none`) when
fewer than two rows exist. -/
def secondLast {α : Type} (l : List α) : Option α := (l.reverse.drop 1).head?

/-- `sl = float(min(last["Low"], df.iloc[-2]["Low"]))` in the BUY branch. -/
def slBuy (last prev : Row) : ℚ := min last.bar.low prev.bar.low

/-- `risk = price - sl if price > sl else price * 0.005` (BUY). -/
def riskBuy (last prev : Row) : ℚ :=
  if last.bar.close > slBuy last prev then last.bar.close - slBuy last prev
  else last.bar.close * (5/1000)

/-- `target = price + max(0.012*price, 1.5*risk)` (BUY). -/
def targetBuy (last prev : Row) : ℚ :=
  last.bar.close + max ((12/1000) * last.bar.close) ((3/2) * riskBuy last prev)

/-- `sl = float(max(last["High"], df.iloc[-2]["High"]))` in the SELL branch. -/
def slSell (last prev : Row) : ℚ := max last.bar.high prev.bar.high

/-- `risk = sl - price if sl > price else price * 0.005` (SELL). -/
def riskSell (last prev : Row) : ℚ :=
  if slSell last prev > last.bar.close then slSell last prev - last.bar.close
  else last.bar.close * (5/1000)

/-- `target = price - max(0.012*price, 1.5*risk)` (SELL). -/
def targetSell (last prev : Row) : ℚ :=
  last.bar.close - max ((12/1000) * last.bar.close) ((3/2) * riskSell last prev)

/-- `analyze_df` of `src/app.py`, lines 62-122, on the cleaned bar list,
with the wall-clock read `datetime.now()` passed in as `now` (the local
variables `signals`, `action`, `price` of the source are inlined). -/
def analyze_df (df : List Bar) (now : ℕ) : AResult :=
  match (keptRows df).getLast? with
  | none => AResult.noData
  | some last =>
    if decideAction (mkSignals last) = "BUY" then
      match secondLast (keptRows df) with
      | none => AResult.indexError
      | some prev =>
        AResult.ok
          { action := decideAction (mkSignals last), price := pyRound2 last.bar.close
            sl := truthyRound2 (some (slBuy last prev))
            target := truthyRound2 (some (targetBuy last prev))
            signals := mkSignals last, time := now }
    else if decideAction (mkSignals last) = "SELL" then
      match secondLast (keptRows df) with
      | none => AResult.indexError
      | some prev =>
        AResult.ok
          { action := decideAction (mkSignals last), price := pyRound2 last.bar.close
            sl := truthyRound2 (some (slSell last prev))
            target := truthyRound2 (some (targetSell last prev))
            signals := mkSignals last, time := now }
    else
      AResult.ok
        { action := decideAction (mkSignals last), price := pyRound2 last.bar.close
          sl := none, target := none, signals := mkSignals last, time := now }

/-- The caller's DataFrame object: its bar rows plus the indicator
columns, which are absent until `analyze_df` assigns them in place
(`df["EMA9"] = ...` etc. mutate the caller's object). -/
structure Frame where
  bars : List Bar
  derived : Option (List Row)
  deriving DecidableEq, Repr

/-- A call to `analyze_df` as seen by the caller: the result together
with the caller's frame afterwards, whose indicator columns have been
assigned in place. -/
def analyze_df_effect (f : Frame) (now : ℕ) : AResult × Frame :=
  (analyze_df f.bars now, { bars := f.bars, derived := some (computeRows f.bars) })

/-- An open trade as stored in `AutoScanner.active_trades`. -/
structure Trade where
  action : String
  entry : ℚ
  sl : ℚ
  target : ℚ
  deriving DecidableEq, Repr

/-- The close-out check of `AutoScanner.run`, lines 206-217: compares the
latest close (`live_price`) against target first, then stop. -/
def checkTrade (t : Trade) (live_price : ℚ) : Option String :=
  if t.action = "BUY" then
    if live_price ≥ t.target then some "TARGET"
    else if live_price ≤ t.sl then some "SL"
    else none
  else if t.action = "SELL" then
    if live_price ≤ t.target then some "TARGET"
    else if live_price ≥ t.sl then some "SL"
    else none
  else none

/-- The close-out check applied to a freshly fetched bar:
`live_price = float(live["Close"].iloc[-1])`. -/
def checkTradeBar (t : Trade) (b : Bar) : Option String := checkTrade t b.close

/-- Erase the wall-clock field of a result. -/
def stripTime : AResult → AResult
  | AResult.ok s => AResult.ok { s with time := 0 }
  | r => r

/-- The `action` field of a returned dict, if one was returned. -/
def actionOf : AResult → Option String
  | AResult.ok s => some s.action
  | _ => none

/-- The `sl` field of a returned dict, if one was returned. -/
def slOf : AResult → Option ℚ
  | AResult.ok s => s.sl
  | _ => none

/-- The `price` field of a returned dict, if one was returned. -/
def priceOf : AResult → Option ℚ
  | AResult.ok s => some s.price
  | _ => none

/-- The returned dict of an `ok` result, a dummy otherwise. -/
def okSig : AResult → Sig
  | AResult.ok s => s
  | _ => { action := "", price := 0, sl := none, target := none, signals := [], time := 0 }

/-- A dummy row. -/
def row0 : Row :=
  { bar := ⟨0, 0, 0, 0, 0⟩, ema9 := none, ema20 := none, rsi := none
    macd_diff := none, vwap := none, vol_avg20 := 0, vol_spike := false }

/-! Concrete inputs used in counterexamples and witnesses. -/

/-- A constant bar. -/
def flatBar : Bar := ⟨100, 100, 100, 100, 1000⟩

/-- Forty bars of constant price and volume. -/
def flat40 : List Bar := List.replicate 40 flatBar

/-- Bar `i` of a steadily rising series. -/
def risingBar (i : ℕ) : Bar :=
  { open_ := (i : ℚ) + 1, high := (i : ℚ) + 1, low := (i : ℚ) + 1
    close := (i : ℚ) + 1, volume := 1000 }

/-- Thirty-four rising bars: exactly one row survives the NaN drop. -/
def rising34 : List Bar := (List.range 34).map risingBar

/-- Forty rising bars whose final two bars carry an anomalous low wick
above the close (`low = 100` while the closes are 39 and 40). -/
def wick40 : List Bar :=
  (List.range 40).map (fun i => if 38 ≤ i then { risingBar i with low := 100 } else risingBar i)

/-- The last surviving row of `flat40`. -/
def flatRow : Row :=
  { bar := flatBar, ema9 := some 100, ema20 := some 100, rsi := some 100
    macd_diff := some 0, vwap := some 100, vol_avg20 := 1000, vol_spike := false }

/-- The dict returned for `flat40`. -/
def sigFlat : Sig :=
  { action := "SELL", price := 100, sl := some 100, target := some (494/5)
    signals := ["EMA Bearish", "RSI Bullish", "MACD Bearish", "Below VWAP"], time := 0 }

/-- The dict returned for `wick40`. -/
def sigWick : Sig := okSig (analyze_df wick40 0)

/-- The last surviving row of `wick40`. -/
def wickLast : Row := ((keptRows wick40).getLast?).getD row0

/-- The second-to-last surviving row of `wick40`. -/
def wickPrev : Row := (secondLast (keptRows wick40)).getD row0

/-! Helper lemmas. -/

/-- `decideAction` takes one of its three literal values. -/
theorem decideAction_eq_or (sigs : List String) :
    decideAction sigs = "BUY" ∨ decideAction sigs = "SELL" ∨ decideAction sigs = "HOLD" := by
  unfold decideAction
  split_ifs <;> simp

/-- Characterisation of the three decision branches in terms of the two
token counts. -/
theorem decideAction_spec (sigs : List String) :
    (decideAction sigs = "BUY" ↔ MIN_CONFIRM ≤ bullish_tokens sigs) ∧
    (decideAction sigs = "SELL" ↔
      (bullish_tokens sigs < MIN_CONFIRM ∧ MIN_CONFIRM ≤ bearish_tokens sigs)) ∧
    (decideAction sigs = "HOLD" ↔
      (bullish_tokens sigs < MIN_CONFIRM ∧ bearish_tokens sigs < MIN_CONFIRM)) := by
  unfold decideAction
  split_ifs with h1 h2
  · exact ⟨by simp [h1], by simp [not_lt.mpr h1], by simp [not_lt.mpr h1]⟩
  · exact ⟨by simp [h1], by simp [not_le.mp h1, h2], by simp [not_lt.mpr h2]⟩
  · exact ⟨by simp [h1], by simp [h2], by simp [not_le.mp h1, not_le.mp h2]⟩

/-- Case analysis of a successful `analyze_df` call: the returned dict is
the literal record of the branch that produced it. -/
theorem analyze_ok_cases (df : List Bar) (now : ℕ) (s : Sig) (last : Row)
    (hok : analyze_df df now = AResult.ok s)
    (hlast : (keptRows df).getLast? = some last) :
    (∃ prev, secondLast (keptRows df) = some prev ∧
      decideAction (mkSignals last) = "BUY" ∧
      s = { action := decideAction (mkSignals last), price := pyRound2 last.bar.close
            sl := truthyRound2 (some (slBuy last prev))
            target := truthyRound2 (some (targetBuy last prev))
            signals := mkSignals last, time := now }) ∨
    (∃ prev, secondLast (keptRows df) = some prev ∧
      decideAction (mkSignals last) = "SELL" ∧
      s = { action := decideAction (mkSignals last), price := pyRound2 last.bar.close
            sl := truthyRound2 (some (slSell last prev))
            target := truthyRound2 (some (targetSell last prev))
            signals := mkSignals last, time := now }) ∨
    (decideAction (mkSignals last) = "HOLD" ∧
      s = { action := decideAction (mkSignals last), price := pyRound2 last.bar.close
            sl := none, target := none, signals := mkSignals last, time := now }) := by
  unfold analyze_df at hok
  split at hok
  · exact AResult.noConfusion hok
  next last' hl' =>
    have hll : last = last' := Option.some.inj (hlast.symm.trans hl')
    subst hll
    split at hok
    next hb =>
      split at hok
      next hp => exact AResult.noConfusion hok
      next prev hp =>
        injection hok with h
        exact Or.inl ⟨prev, hp, hb, h.symm⟩
    next hb =>
      split at hok
      next hs =>
        split at hok
        next hp => exact AResult.noConfusion hok
        next prev hp =>
          injection hok with h
          exact Or.inr (Or.inl ⟨prev, hp, hs, h.symm⟩)
      next hs =>
        injection hok with h
        refine Or.inr (Or.inr ⟨?_, h.symm⟩)
        rcases decideAction_eq_or (mkSignals last) with h1 | h1 | h1
        · exact absurd h1 hb
        · exact absurd h1 hs
        · exact h1

/-! Claim theorems. -/

/-- Claim C3: every input bar sequence shorter than the warm-up length of
the rolling indicator windows (34 bars: the MACD signal line is NaN
before index 33) is answered with NO_DATA (`None`), never with a
BUY/SELL/HOLD classification. -/
theorem C3_short_input_no_data (df : List Bar) (now : ℕ) (h : df.length ≤ 33) :
    analyze_df df now = AResult.noData := by
  have hk : keptRows df = [] := by
    unfold keptRows computeRows
    apply List.filter_eq_nil_iff.mpr
    intro r hr
    obtain ⟨i, hi, rfl⟩ := List.mem_map.mp hr
    have hi' : i < 33 := lt_of_lt_of_le (List.mem_range.mp hi) h
    simp [mkRow, hasNaN, macd_diffAt, hi']
  unfold analyze_df
  rw [hk]
  rfl

/-- Ten constant bars. -/
def flat10 : List Bar := List.replicate 10 flatBar

/-- Witness for C3: a concrete ten-bar input is answered with NO_DATA. -/
theorem C3_witness : flat10.length ≤ 33 ∧ analyze_df flat10 0 = AResult.noData :=
  ⟨by decide, C3_short_input_no_data flat10 0 (by decide)⟩

/-- A caller's frame before any evaluation: no indicator columns yet. -/
def frame0 : Frame := { bars := flat40, derived := none }

/-- Counterexample to C5: evaluating a concrete frame does not leave the
caller's object unchanged — `df["EMA9"] = ...` and the six further column
assignments write the derived columns into the input frame. -/
theorem C5_counterexample : (analyze_df_effect frame0 0).2 ≠ frame0 := by decide

/-- Claim C5 amended: the evaluator does mutate the caller's frame by
writing the derived indicator columns into it, but it never alters the
OHLCV bar data itself, and the result is a pure function of the bars. -/
theorem C5_no_bar_mutation (f : Frame) (now : ℕ) :
    ((analyze_df_effect f now).2).bars = f.bars ∧
    ((analyze_df_effect f now).2).derived = some (computeRows f.bars) ∧
    (analyze_df_effect f now).1 = analyze_df f.bars now :=
  ⟨rfl, rfl, rfl⟩

/-- Counterexample to C6: two calls on the identical bar sequence made at
different wall-clock instants return different dicts — the `time` field
is `datetime.now()`, not a function of the input. -/
theorem C6_counterexample : analyze_df flat40 0 ≠ analyze_df flat40 1 := by decide

/-- Claim C6 amended: determinism holds for every field except the
`time` stamp — results of two calls on the identical bar sequence agree
once the wall-clock field is erased. -/
theorem C6_deterministic_up_to_time (df : List Bar) (t t' : ℕ) :
    stripTime (analyze_df df t) = stripTime (analyze_df df t') := by
  unfold analyze_df
  cases hl : (keptRows df).getLast? with
  | none => rfl
  | some last =>
    dsimp only
    by_cases hb : decideAction (mkSignals last) = "BUY"
    · rw [if_pos hb, if_pos hb]
      cases hp : secondLast (keptRows df) <;> rfl
    · rw [if_neg hb, if_neg hb]
      by_cases hs : decideAction (mkSignals last) = "SELL"
      · rw [if_pos hs, if_pos hs]
        cases hp : secondLast (keptRows df) <;> rfl
      · rw [if_neg hs, if_neg hs]
        rfl

/-- An open BUY trade whose levels sit on either side of the entry. -/
def tradeStraddle : Trade := { action := "BUY", entry := 100, sl := 95, target := 106 }

/-- A bar whose high crosses the target and whose low crosses the stop of
`tradeStraddle`, while its close sits between the two levels. -/
def barStraddle : Bar := { open_ := 100, high := 107, low := 94, close := 100, volume := 1000 }

/-- Counterexample to C7: a bar crossing both levels (high above target,
low below stop) does not close the trade with TARGET — the scanner
compares only the latest close, which here reaches neither level. -/
theorem C7_counterexample :
    tradeStraddle.target ≤ barStraddle.high ∧ barStraddle.low ≤ tradeStraddle.sl ∧
    checkTradeBar tradeStraddle barStraddle = none := by decide

/-- Claim C7 amended: the close-out check reads only the latest close
price.  The target comparison does come first, so if the close itself
reaches both levels (possible only with inverted levels) TARGET wins and
STOP is never reported; a bar whose close reaches neither level closes
nothing, whatever its high and low did. -/
theorem C7_target_checked_first (t : Trade) (p : ℚ) :
    (t.action = "BUY" →
      (t.target ≤ p → checkTrade t p = some "TARGET") ∧
      (p < t.target → p ≤ t.sl → checkTrade t p = some "SL") ∧
      (p < t.target → t.sl < p → checkTrade t p = none)) ∧
    (t.action = "SELL" →
      (p ≤ t.target → checkTrade t p = some "TARGET") ∧
      (t.target < p → t.sl ≤ p → checkTrade t p = some "SL") ∧
      (t.target < p → p < t.sl → checkTrade t p = none)) := by
  constructor
  · intro hB
    refine ⟨fun h1 => ?_, fun h1 h2 => ?_, fun h1 h2 => ?_⟩
    · simp [checkTrade, hB, ge_iff_le, h1]
    · simp [checkTrade, hB, ge_iff_le, not_le.mpr h1, h2]
    · simp [checkTrade, hB, ge_iff_le, not_le.mpr h1, not_le.mpr h2]
  · intro hS
    refine ⟨fun h1 => ?_, fun h1 h2 => ?_, fun h1 h2 => ?_⟩
    · simp [checkTrade, hS, ge_iff_le, h1]
    · simp [checkTrade, hS, ge_iff_le, not_le.mpr h1, h2]
    · simp [checkTrade, hS, ge_iff_le, not_le.mpr h1, not_le.mpr h2]

/-- A BUY trade whose stop sits above its target, the only shape in which
the close can reach both levels at once. -/
def tradeInverted : Trade := { action := "BUY", entry := 100, sl := 110, target := 106 }

/-- Witness for the amended C7: with both levels reached by the close,
TARGET wins. -/
theorem C7_witness :
    tradeInverted.action = "BUY" ∧ tradeInverted.target ≤ (108 : ℚ) ∧
    (108 : ℚ) ≤ tradeInverted.sl ∧ checkTrade tradeInverted 108 = some "TARGET" :=
  ⟨rfl, by decide, by decide,
    ((C7_target_checked_first tradeInverted 108).1 rfl).1 (by decide)⟩

/-- Counterexample to C8: forty constant bars do not evaluate to HOLD. -/
theorem C8_counterexample : actionOf (analyze_df flat40 0) ≠ some "HOLD" := by decide

/-- Claim C8 amended: forty bars of constant price and volume evaluate to
SELL, not HOLD.  The flat series drives the RSI to 100 (its zero
down-move average short-circuits to 100), so the momentum token is
`RSI Bullish`, not neutral; the EMA, MACD and VWAP ties all read bearish,
reaching the three confirmations.  There is indeed no volume spike. -/
theorem C8_flat_is_sell : analyze_df flat40 0 = AResult.ok sigFlat := by decide

/-- Counterexample to C1: a concrete forty-bar BUY evaluation (rising
closes, the last two bars carrying an anomalous low wick at 100, above
the closes 39 and 40) returns stop-loss 100, which is not strictly less
than the entry price 40, and is not the fallback `close - 0.005*close`
either: the fallback is applied only to the risk, never to the
stop-loss itself. -/
theorem C1_counterexample :
    actionOf (analyze_df wick40 0) = some "BUY" ∧
    slOf (analyze_df wick40 0) = some 100 ∧
    priceOf (analyze_df wick40 0) = some 40 ∧
    ¬ ((100 : ℚ) < 40) ∧
    slOf (analyze_df wick40 0) ≠ some (40 - (5/1000) * 40) := by decide

/-- Claim C1 amended: for a BUY the returned stop-loss is
`min(latest low, previous bar's low)` rounded, with no fallback applied
to it, so it need not sit below the entry; the fallback
`close*0.005` replaces only the risk, which keeps the risk positive and
the target strictly above the entry whenever the close is positive
(SELL mirrored: stop-loss is the raw max of the highs, target strictly
below the entry). -/
theorem C1_stop_loss (df : List Bar) (now : ℕ) (s : Sig) (last prev : Row)
    (hok : analyze_df df now = AResult.ok s)
    (hlast : (keptRows df).getLast? = some last)
    (hprev : secondLast (keptRows df) = some prev) :
    (s.action = "BUY" →
      s.sl = truthyRound2 (some (slBuy last prev)) ∧
      (0 < last.bar.close →
        0 < riskBuy last prev ∧ last.bar.close < targetBuy last prev)) ∧
    (s.action = "SELL" →
      s.sl = truthyRound2 (some (slSell last prev)) ∧
      (0 < last.bar.close →
        0 < riskSell last prev ∧ targetSell last prev < last.bar.close)) := by
  have hrb : 0 < last.bar.close → 0 < riskBuy last prev := by
    intro hc
    unfold riskBuy
    split_ifs with h
    · linarith
    · have h5 : (0:ℚ) < 5/1000 := by norm_num
      exact mul_pos hc h5
  have htb : 0 < last.bar.close → last.bar.close < targetBuy last prev := by
    intro hc
    unfold targetBuy
    have h1 : (0:ℚ) < (12/1000) * last.bar.close := by
      have : (0:ℚ) < 12/1000 := by norm_num
      exact mul_pos this hc
    have h2 := lt_of_lt_of_le h1 (le_max_left ((12/1000) * last.bar.close)
      ((3/2) * riskBuy last prev))
    linarith
  have hrs : 0 < last.bar.close → 0 < riskSell last prev := by
    intro hc
    unfold riskSell
    split_ifs with h
    · linarith
    · have h5 : (0:ℚ) < 5/1000 := by norm_num
      exact mul_pos hc h5
  have hts : 0 < last.bar.close → targetSell last prev < last.bar.close := by
    intro hc
    unfold targetSell
    have h1 : (0:ℚ) < (12/1000) * last.bar.close := by
      have : (0:ℚ) < 12/1000 := by norm_num
      exact mul_pos this hc
    have h2 := lt_of_lt_of_le h1 (le_max_left ((12/1000) * last.bar.close)
      ((3/2) * riskSell last prev))
    linarith
  obtain ⟨p, hp, hb, rfl⟩ | ⟨p, hp, hs, rfl⟩ | ⟨hh, rfl⟩ :=
    analyze_ok_cases df now s last hok hlast
  · have hpp : p = prev := Option.some.inj (hp.symm.trans hprev)
    subst hpp
    constructor
    · exact fun _ => ⟨rfl, fun hc => ⟨hrb hc, htb hc⟩⟩
    · intro hsell
      simp [hb] at hsell
  · have hpp : p = prev := Option.some.inj (hp.symm.trans hprev)
    subst hpp
    constructor
    · intro hbuy
      simp [hs] at hbuy
    · exact fun _ => ⟨rfl, fun hc => ⟨hrs hc, hts hc⟩⟩
  · constructor
    · intro hbuy
      simp [hh] at hbuy
    · intro hsell
      simp [hh] at hsell

/-- Witness for the amended C1: the hypotheses of `C1_stop_loss` hold at
the concrete input `wick40`, where the conclusion exhibits the unchanged
stop-loss and the positive risk/target margin. -/
theorem C1_witness :
    (analyze_df wick40 0 = AResult.ok sigWick ∧
     (keptRows wick40).getLast? = some wickLast ∧
     secondLast (keptRows wick40) = some wickPrev ∧
     sigWick.action = "BUY" ∧ (0:ℚ) < wickLast.bar.close) ∧
    (sigWick.sl = truthyRound2 (some (slBuy wickLast wickPrev)) ∧
     0 < riskBuy wickLast wickPrev ∧
     wickLast.bar.close < targetBuy wickLast wickPrev) := by
  have h := C1_stop_loss wick40 0 sigWick wickLast wickPrev
    (by decide) (by decide) (by decide)
  have h2 := h.1 (by decide)
  have h3 := h2.2 (by decide)
  exact ⟨⟨by decide, by decide, by decide, by decide, by decide⟩, h2.1, h3.1, h3.2⟩

/-- Claim C2: for every surviving bar sequence the classification is BUY
exactly when the bullish token count reaches `MIN_CONFIRM`, otherwise
SELL exactly when the bearish count reaches it, otherwise HOLD; and the
`action` field of every returned dict is that classification of the last
surviving row's tokens. -/
theorem C2_classification (df : List Bar) (now : ℕ) (s : Sig) (last : Row)
    (hok : analyze_df df now = AResult.ok s)
    (hlast : (keptRows df).getLast? = some last) :
    s.action = decideAction (mkSignals last) ∧
    (decideAction (mkSignals last) = "BUY" ↔
      MIN_CONFIRM ≤ bullish_tokens (mkSignals last)) ∧
    (decideAction (mkSignals last) = "SELL" ↔
      (bullish_tokens (mkSignals last) < MIN_CONFIRM ∧
        MIN_CONFIRM ≤ bearish_tokens (mkSignals last))) ∧
    (decideAction (mkSignals last) = "HOLD" ↔
      (bullish_tokens (mkSignals last) < MIN_CONFIRM ∧
        bearish_tokens (mkSignals last) < MIN_CONFIRM)) := by
  refine ⟨?_, decideAction_spec (mkSignals last)⟩
  obtain ⟨p, hp, hb, rfl⟩ | ⟨p, hp, hs, rfl⟩ | ⟨hh, rfl⟩ :=
    analyze_ok_cases df now s last hok hlast <;> rfl

/-- Witness for C2 at the concrete input `flat40`. -/
theorem C2_witness :
    (analyze_df flat40 0 = AResult.ok sigFlat ∧
     (keptRows flat40).getLast? = some flatRow) ∧
    (sigFlat.action = decideAction (mkSignals flatRow) ∧
     (decideAction (mkSignals flatRow) = "BUY" ↔
       MIN_CONFIRM ≤ bullish_tokens (mkSignals flatRow)) ∧
     (decideAction (mkSignals flatRow) = "SELL" ↔
       (bullish_tokens (mkSignals flatRow) < MIN_CONFIRM ∧
         MIN_CONFIRM ≤ bearish_tokens (mkSignals flatRow))) ∧
     (decideAction (mkSignals flatRow) = "HOLD" ↔
       (bullish_tokens (mkSignals flatRow) < MIN_CONFIRM ∧
         bearish_tokens (mkSignals flatRow) < MIN_CONFIRM))) :=
  ⟨⟨by decide, by decide⟩, C2_classification flat40 0 sigFlat flatRow (by decide) (by decide)⟩

/-- Counterexample to C4: a concrete 34-bar input (rising closes) leaves
exactly one row after the NaN drop and classifies BUY, so
`df.iloc[-2]["Low"]` raises an `IndexError` out of `analyze_df` instead
of returning a Signal or NO_DATA. -/
theorem C4_counterexample : analyze_df rising34 0 = AResult.indexError := by decide

/-- Claim C4 amended: the evaluator's only escaping exception is the
`IndexError` of the previous-bar lookup, which occurs exactly when some
row survives the NaN drop, no second-to-last survivor exists, and the
classification is actionable; in every other case a dict or NO_DATA is
returned. -/
theorem C4_index_error_iff (df : List Bar) (now : ℕ) :
    analyze_df df now = AResult.indexError ↔
      ∃ last, (keptRows df).getLast? = some last ∧
        secondLast (keptRows df) = none ∧
        decideAction (mkSignals last) ≠ "HOLD" := by
  constructor
  · intro h
    unfold analyze_df at h
    split at h
    · exact AResult.noConfusion h
    next last hl =>
      split at h
      next hb =>
        split at h
        next hp => exact ⟨last, hl, hp, by rw [hb]; decide⟩
        next prev hp => exact AResult.noConfusion h
      next hb =>
        split at h
        next hs =>
          split at h
          next hp => exact ⟨last, hl, hp, by rw [hs]; decide⟩
          next prev hp => exact AResult.noConfusion h
        next hs => exact AResult.noConfusion h
  · rintro ⟨last, hl, hp, hne⟩
    rcases decideAction_eq_or (mkSignals last) with hb | hb | hb
    · simp [analyze_df, hl, hp, hb]
    · simp [analyze_df, hl, hp, hb]
    · exact absurd hb hne

/-- Claim C9: boundary ties of the indicator comparisons land on the
bearish side — equal EMAs emit `EMA Bearish`, a zero MACD differential
emits `MACD Bearish`, a close equal to the VWAP emits `Below VWAP`, and
an RSI in the closed band [45, 55] emits no momentum token at all. -/
theorem C9_ties_bearish (r : Row) :
    (∀ e : ℚ, r.ema9 = some e → r.ema20 = some e →
      ("EMA Bearish" ∈ mkSignals r ∧ "EMA Bullish" ∉ mkSignals r)) ∧
    (r.macd_diff = some 0 →
      ("MACD Bearish" ∈ mkSignals r ∧ "MACD Bullish" ∉ mkSignals r)) ∧
    (r.vwap = some r.bar.close →
      ("Below VWAP" ∈ mkSignals r ∧ "Above VWAP" ∉ mkSignals r)) ∧
    (∀ q : ℚ, r.rsi = some q → 45 ≤ q → q ≤ 55 →
      ("RSI Bullish" ∉ mkSignals r ∧ "RSI Bearish" ∉ mkSignals r)) := by
  refine ⟨?_, ?_, ?_, ?_⟩
  · intro e h9 h20
    constructor
    · simp [mkSignals, h9, h20]
    · simp only [mkSignals, h9, h20, Option.getD_some, gt_iff_lt, lt_self_iff_false,
        if_false]
      split_ifs <;> decide
  · intro hm
    constructor
    · simp [mkSignals, hm]
    · simp only [mkSignals, hm, Option.getD_some, gt_iff_lt, lt_self_iff_false, if_false]
      split_ifs <;> decide
  · intro hv
    constructor
    · simp [mkSignals, hv]
    · simp only [mkSignals, hv, Option.getD_some, gt_iff_lt, lt_self_iff_false, if_false]
      split_ifs <;> decide
  · intro q hq h45 h55
    have hne1 : ¬ (55 : ℚ) < q := not_lt.mpr h55
    have hne2 : ¬ q < (45 : ℚ) := not_lt.mpr h45
    constructor
    · simp only [mkSignals, hq, Option.getD_some, gt_iff_lt, hne1, hne2, if_false]
      split_ifs <;> decide
    · simp only [mkSignals, hq, Option.getD_some, gt_iff_lt, hne1, hne2, if_false]
      split_ifs <;> decide

/-- A row whose comparisons all sit exactly on their boundaries. -/
def rTie : Row :=
  { bar := ⟨1, 1, 1, 1, 1⟩, ema9 := some 1, ema20 := some 1, rsi := some 50
    macd_diff := some 0, vwap := some 1, vol_avg20 := 1, vol_spike := false }

/-- Witness for C9 at the concrete boundary row `rTie`. -/
theorem C9_witness :
    (rTie.ema9 = some 1 ∧ rTie.ema20 = some 1 ∧ rTie.macd_diff = some 0 ∧
     rTie.vwap = some rTie.bar.close ∧ rTie.rsi = some 50 ∧
     (45 : ℚ) ≤ 50 ∧ (50 : ℚ) ≤ 55) ∧
    ("EMA Bearish" ∈ mkSignals rTie ∧ "EMA Bullish" ∉ mkSignals rTie ∧
     "MACD Bearish" ∈ mkSignals rTie ∧ "MACD Bullish" ∉ mkSignals rTie ∧
     "Below VWAP" ∈ mkSignals rTie ∧ "Above VWAP" ∉ mkSignals rTie ∧
     "RSI Bullish" ∉ mkSignals rTie ∧ "RSI Bearish" ∉ mkSignals rTie) := by
  obtain ⟨h1, h2, h3, h4⟩ := C9_ties_bearish rTie
  have e1 := h1 1 rfl rfl
  have e2 := h2 rfl
  have e3 := h3 rfl
  have e4 := h4 50 rfl (by norm_num) (by norm_num)
  exact ⟨⟨rfl, rfl, rfl, rfl, rfl, by norm_num, by norm_num⟩,
    e1.1, e1.2, e2.1, e2.2, e3.1, e3.2, e4.1, e4.2⟩

/-- Claim C10: the returned `price` is the latest close rounded to two
decimals; for actionable signals the returned `sl` and `target` are the
computed values passed through `round(·, 2) if · else None`, which
reports an exact zero as null. -/
theorem C10_rounding (df : List Bar) (now : ℕ) (s : Sig) (last : Row)
    (hok : analyze_df df now = AResult.ok s)
    (hlast : (keptRows df).getLast? = some last) :
    s.price = pyRound2 last.bar.close ∧
    truthyRound2 (some 0) = none ∧
    (s.action = "BUY" → ∃ prev, secondLast (keptRows df) = some prev ∧
      s.sl = truthyRound2 (some (slBuy last prev)) ∧
      s.target = truthyRound2 (some (targetBuy last prev))) ∧
    (s.action = "SELL" → ∃ prev, secondLast (keptRows df) = some prev ∧
      s.sl = truthyRound2 (some (slSell last prev)) ∧
      s.target = truthyRound2 (some (targetSell last prev))) := by
  obtain ⟨p, hp, hb, rfl⟩ | ⟨p, hp, hs, rfl⟩ | ⟨hh, rfl⟩ :=
    analyze_ok_cases df now s last hok hlast
  · refine ⟨rfl, rfl, fun _ => ⟨p, hp, rfl, rfl⟩, fun hsell => ?_⟩
    simp [hb] at hsell
  · refine ⟨rfl, rfl, fun hbuy => ?_, fun _ => ⟨p, hp, rfl, rfl⟩⟩
    simp [hs] at hbuy
  · refine ⟨rfl, rfl, fun hbuy => ?_, fun hsell => ?_⟩
    · simp [hh] at hbuy
    · simp [hh] at hsell

/-- Witness for C10 at the concrete input `flat40`. -/
theorem C10_witness :
    (analyze_df flat40 0 = AResult.ok sigFlat ∧
     (keptRows flat40).getLast? = some flatRow) ∧
    (sigFlat.price = pyRound2 flatRow.bar.close ∧
     truthyRound2 (some 0) = none ∧
     (sigFlat.action = "BUY" → ∃ prev, secondLast (keptRows flat40) = some prev ∧
       sigFlat.sl = truthyRound2 (some (slBuy flatRow prev)) ∧
       sigFlat.target = truthyRound2 (some (targetBuy flatRow prev))) ∧
     (sigFlat.action = "SELL" → ∃ prev, secondLast (keptRows flat40) = some prev ∧
       sigFlat.sl = truthyRound2 (some (slSell flatRow prev)) ∧
       sigFlat.target = truthyRound2 (some (targetSell flatRow prev)))) :=
  ⟨⟨by decide, by decide⟩, C10_rounding flat40 0 sigFlat flatRow (by decide) (by decide)⟩

end OneDayStock
